import Mathlib

/-!
Verification of the risk-list reconciliation worker (`src/user-risk-demo.js`).

The JavaScript source is shallowly embedded: JS arrays become `List`,
JS `Set` values built with `new Set(xs)` and spread back with `[...s]`
become `List.dedup` (membership and cardinality agree with the JS set),
objects become structures, and the external HTTP world is abstracted as
oracles (functions from attempt / page number to the response the network
would deliver).  Fields that a JS return object does not carry are modelled
as `Option` fields set to `none`, or — for the `success` property that
`fetchGatewayListItems` never sets but callers test — as a constant-false
accessor, because in JavaScript reading an absent property yields
`undefined`, which is falsy.
-/

namespace UserRiskDemo

/-- A Gateway list item as returned by the list-items API and as sent in a
PATCH `append` array: a `value` (the email) plus a description string. -/
structure GatewayItem where
  value : String
  description : String := ""
deriving DecidableEq, Repr

/-- The pagination summary object built by the paginated fetchers. -/
structure ListPagination where
  totalItems : Nat
  totalRequests : Nat
  pagesProcessed : Nat
deriving DecidableEq, Repr

/-- The object returned by `fetchGatewayListItems` (lines 1189-1206 of
`user-risk-demo.js`).  The normal return carries `items` and `pagination`
and no `error`; the catch-branch return carries `items: []` and an `error`
message and no `pagination`.  Neither return site sets a `success`
property. -/
structure FetchItemsResult where
  items : List GatewayItem
  pagination : Option ListPagination := none
  error : Option String := none
deriving DecidableEq, Repr

/-- Truthiness of `result.success` for the object returned by
`fetchGatewayListItems`: neither of its return sites sets a `success`
property, so in JavaScript the read yields `undefined`, which is falsy. -/
def FetchItemsResult.successProp (_ : FetchItemsResult) : Bool := false

/-- The expected-state object stored in KV under `gateway_list_<listId>`
by `storeExpectedStateInKV` (lines 749-754) and updated by
`updateGatewayList` (lines 984-992, 1016-1020).  A `reconciliationNeeded`
property absent from the stored JSON reads back as `undefined`, i.e. false
after the `|| false` at line 303, so it is modelled as a `Bool` that is
`false` when the property was not written. -/
structure ExpectedState where
  emails : List String
  riskLevel : String := ""
  lastUpdated : String := ""
  userCount : Nat := 0
  lastAttempt : Option String := none
  reconciliationNeeded : Bool := false
  lastReconciliationAttempt : Option String := none
deriving DecidableEq, Repr

/-- A user record from the risk-scoring API; only `email` and
`max_risk_level` are consumed by the reconciliation logic. -/
structure UserRecord where
  email : String
  max_risk_level : String
deriving DecidableEq, Repr

/-- Line 750: `emails: users.map(user => user.email)` plus the metadata
fields written by `storeExpectedStateInKV`. -/
def storeExpectedStateInKV (users : List UserRecord) (riskLevel lastUpdated : String) :
    ExpectedState :=
  { emails := users.map (fun user => user.email)
    riskLevel := riskLevel
    lastUpdated := lastUpdated
    userCount := users.length }

/-- Line 793: `[...expectedEmails].filter(email => !currentEmails.has(email))`
where `expectedEmails = new Set(expectedState.emails)` and `currentEmails`
is the set of current item values. -/
def emailsToAdd (expectedEmails currentEmails : List String) : List String :=
  expectedEmails.dedup.filter (fun email => !currentEmails.contains email)

/-- Line 794: `[...currentEmails].filter(email => !expectedEmails.has(email))`. -/
def emailsToRemove (expectedEmails currentEmails : List String) : List String :=
  currentEmails.dedup.filter (fun email => !expectedEmails.contains email)

/-- The body of the PATCH request built at lines 800-813: an `append`
array of items (present only when there are emails to add) and a `remove`
array of values (present only when there are emails to remove); an absent
array is modelled as the empty list. -/
structure PatchBody where
  append : List GatewayItem
  remove : List String
deriving DecidableEq, Repr

/-- The result object returned by `syncGatewayListFromKV`. -/
structure SyncResult where
  success : Bool
  added : Nat := 0
  removed : Nat := 0
  totalUsers : Nat := 0
  error : Option String := none
deriving DecidableEq, Repr

/-- Shallow embedding of `syncGatewayListFromKV` (lines 766-856).
Inputs: the KV lookup result for `gateway_list_<listId>` (`none` when the
key is absent), the result of the fresh `fetchGatewayListItems` call, and
the `success` flag of the remote store reply to the PATCH request
(`updateData.success`, line 828).  Output: the returned result object
paired with the PATCH body it submitted (`none` when no PATCH request was
issued). -/
def syncGatewayListFromKV (kv : Option ExpectedState) (currentResult : FetchItemsResult)
    (patchSuccess : Bool) : SyncResult × Option PatchBody :=
  match kv with
  | none => ({ success := false, error := some "No expected state in KV" }, none)
  | some expectedState =>
    match currentResult.error with
    | some e => ({ success := false, error := some e }, none)
    | none =>
      let expectedEmails := expectedState.emails
      let currentEmails := currentResult.items.map (fun item => item.value)
      let toAdd := emailsToAdd expectedEmails currentEmails
      let toRemove := emailsToRemove expectedEmails currentEmails
      if toAdd.length > 0 ∨ toRemove.length > 0 then
        let patchBody : PatchBody :=
          { append := toAdd.map (fun email =>
              { value := email
                description := expectedState.riskLevel ++ " risk user - updated " ++
                  expectedState.lastUpdated })
            remove := toRemove }
        if patchSuccess then
          ({ success := true
             added := toAdd.length
             removed := toRemove.length
             totalUsers := expectedState.emails.length }, some patchBody)
        else
          ({ success := false, error := some "patch rejected by remote store" },
           some patchBody)
      else
        ({ success := true
           added := 0
           removed := 0
           totalUsers := expectedState.emails.length }, none)

/-- Modelled from the spec: the external remote list store applying an
incremental patch faithfully — the items named in `remove` leave the list
and the items in `append` join it (§6 `applyIncremental`; the store itself
is outside `src/`). -/
def applyPatch (current : List String) (patch : PatchBody) : List String :=
  current.filter (fun v => !patch.remove.contains v) ++
    patch.append.map (fun item => item.value)

/-- The remote membership after a sync pass: unchanged when no PATCH was
issued, otherwise the faithful application of the issued patch. -/
def remoteAfterSync (current : List String) (patch : Option PatchBody) : List String :=
  match patch with
  | none => current
  | some p => applyPatch current p

theorem mem_emailsToAdd (E A : List String) (e : String) :
    e ∈ emailsToAdd E A ↔ e ∈ E ∧ e ∉ A := by
  simp [emailsToAdd, List.mem_filter, List.mem_dedup]

theorem mem_emailsToRemove (E A : List String) (e : String) :
    e ∈ emailsToRemove E A ↔ e ∈ A ∧ e ∉ E := by
  simp [emailsToRemove, List.mem_filter, List.mem_dedup]

theorem mem_applyPatch_of_desc (E A : List String) (desc : String) (e : String) :
    e ∈ applyPatch A
        { append := (emailsToAdd E A).map (fun email =>
            { value := email, description := desc })
          remove := emailsToRemove E A } ↔ e ∈ E := by
  by_cases hE : e ∈ E <;> by_cases hA : e ∈ A <;>
    simp [applyPatch, List.mem_filter, List.mem_map, mem_emailsToRemove, mem_emailsToAdd,
      List.elem_iff, hE, hA, emailsToAdd, emailsToRemove, List.mem_dedup]

theorem diff_empty_mem (E A : List String)
    (h : ¬((emailsToAdd E A).length > 0 ∨ (emailsToRemove E A).length > 0)) (e : String) :
    e ∈ A ↔ e ∈ E := by
  push_neg at h
  obtain ⟨h1, h2⟩ := h
  have hadd : emailsToAdd E A = [] := List.length_eq_zero.mp (Nat.le_zero.mp h1)
  have hrem : emailsToRemove E A = [] := List.length_eq_zero.mp (Nat.le_zero.mp h2)
  constructor
  · intro hmem
    by_contra hne
    exact absurd ((mem_emailsToRemove E A e).mpr ⟨hmem, hne⟩) (by simp [hrem])
  · intro hmem
    by_contra hne
    exact absurd ((mem_emailsToAdd E A e).mpr ⟨hmem, hne⟩) (by simp [hadd])

theorem mem_remoteAfterSync (es : ExpectedState) (fetch : FetchItemsResult)
    (herr : fetch.error = none) (e : String) :
    e ∈ remoteAfterSync (fetch.items.map (fun item => item.value))
        (syncGatewayListFromKV (some es) fetch true).2 ↔ e ∈ es.emails := by
  simp only [syncGatewayListFromKV, herr]
  split_ifs with h
  · simpa [remoteAfterSync] using
      mem_applyPatch_of_desc es.emails (fetch.items.map (fun item => item.value))
        (es.riskLevel ++ " risk user - updated " ++ es.lastUpdated) e
  · simpa [remoteAfterSync] using
      diff_empty_mem es.emails (fetch.items.map (fun item => item.value)) h e

theorem sync_no_change (es : ExpectedState) (fetch : FetchItemsResult)
    (herr : fetch.error = none)
    (hmem : ∀ e, e ∈ fetch.items.map (fun item => item.value) ↔ e ∈ es.emails) :
    syncGatewayListFromKV (some es) fetch true =
      ({ success := true, added := 0, removed := 0,
         totalUsers := es.emails.length }, none) := by
  have hadd : emailsToAdd es.emails (fetch.items.map (fun item => item.value)) = [] := by
    rw [List.eq_nil_iff_forall_not_mem]
    intro e he
    rw [mem_emailsToAdd] at he
    exact he.2 ((hmem e).mpr he.1)
  have hrem : emailsToRemove es.emails (fetch.items.map (fun item => item.value)) = [] := by
    rw [List.eq_nil_iff_forall_not_mem]
    intro e he
    rw [mem_emailsToRemove] at he
    exact he.2 ((hmem e).mp he.1)
  simp [syncGatewayListFromKV, herr, hadd, hrem]

/-- C1: for the expected identifier set E stored in KV and the actual
remote identifier set A obtained from the fetched list items, the diff
computed by `syncGatewayListFromKV` is `toAdd = E − A` and
`toRemove = A − E` (as sets), and faithfully applying the PATCH it issues
(append `toAdd`, remove `toRemove`) to A yields exactly E. -/
theorem C1_sync_diff_completeness
    (es : ExpectedState) (fetch : FetchItemsResult) (herr : fetch.error = none)
    (e : String) :
    (e ∈ emailsToAdd es.emails (fetch.items.map (fun item => item.value)) ↔
       e ∈ es.emails ∧ e ∉ fetch.items.map (fun item => item.value)) ∧
    (e ∈ emailsToRemove es.emails (fetch.items.map (fun item => item.value)) ↔
       e ∈ fetch.items.map (fun item => item.value) ∧ e ∉ es.emails) ∧
    (e ∈ remoteAfterSync (fetch.items.map (fun item => item.value))
         (syncGatewayListFromKV (some es) fetch true).2 ↔ e ∈ es.emails) := by
  exact ⟨mem_emailsToAdd _ _ _, mem_emailsToRemove _ _ _,
    mem_remoteAfterSync es fetch herr e⟩

/-- Example inputs for the diff scenario of §8: expected
`{a@x.com, b@x.com}` against remote `{b@x.com, c@x.com}`. -/
def esEx : ExpectedState := { emails := ["a@x.com", "b@x.com"] }

/-- Remote fetch result holding `{b@x.com, c@x.com}` with no error. -/
def fetchEx : FetchItemsResult :=
  { items := [{ value := "b@x.com" }, { value := "c@x.com" }] }

theorem C1_sync_diff_completeness_witness :
    fetchEx.error = none ∧
    (("a@x.com" ∈ emailsToAdd esEx.emails (fetchEx.items.map (fun item => item.value)) ↔
        "a@x.com" ∈ esEx.emails ∧
          "a@x.com" ∉ fetchEx.items.map (fun item => item.value)) ∧
     ("a@x.com" ∈ emailsToRemove esEx.emails (fetchEx.items.map (fun item => item.value)) ↔
        "a@x.com" ∈ fetchEx.items.map (fun item => item.value) ∧
          "a@x.com" ∉ esEx.emails) ∧
     ("a@x.com" ∈ remoteAfterSync (fetchEx.items.map (fun item => item.value))
          (syncGatewayListFromKV (some esEx) fetchEx true).2 ↔
        "a@x.com" ∈ esEx.emails)) :=
  ⟨rfl, C1_sync_diff_completeness esEx fetchEx rfl "a@x.com"⟩

/-- C2: when the remote membership already equals the stored expected
membership, `syncGatewayListFromKV` issues no PATCH (second component
`none`) and returns success with `added = 0` and `removed = 0`; and a
second reconciliation run — same stored email set, remote as left by the
faithfully applied patch of the first run — likewise issues no PATCH and
reports zero additions and zero removals. -/
theorem C2_sync_idempotent
    (esA : ExpectedState) (fetchA : FetchItemsResult) (herrA : fetchA.error = none)
    (hA1 : ∀ e ∈ fetchA.items.map (fun item => item.value), e ∈ esA.emails)
    (hA2 : ∀ e ∈ esA.emails, e ∈ fetchA.items.map (fun item => item.value))
    (es1 es2 : ExpectedState) (fetch1 fetch2 : FetchItemsResult)
    (herr1 : fetch1.error = none) (herr2 : fetch2.error = none)
    (hsame : es2.emails = es1.emails)
    (h2a : ∀ e ∈ fetch2.items.map (fun item => item.value),
        e ∈ remoteAfterSync (fetch1.items.map (fun item => item.value))
              (syncGatewayListFromKV (some es1) fetch1 true).2)
    (h2b : ∀ e ∈ remoteAfterSync (fetch1.items.map (fun item => item.value))
              (syncGatewayListFromKV (some es1) fetch1 true).2,
        e ∈ fetch2.items.map (fun item => item.value)) :
    syncGatewayListFromKV (some esA) fetchA true =
      ({ success := true, added := 0, removed := 0,
         totalUsers := esA.emails.length }, none) ∧
    syncGatewayListFromKV (some es2) fetch2 true =
      ({ success := true, added := 0, removed := 0,
         totalUsers := es2.emails.length }, none) := by
  constructor
  · exact sync_no_change esA fetchA herrA (fun e => ⟨hA1 e, hA2 e⟩)
  · apply sync_no_change es2 fetch2 herr2
    intro e
    constructor
    · intro he
      have hmem := h2a e he
      rw [mem_remoteAfterSync es1 fetch1 herr1 e] at hmem
      rwa [hsame]
    · intro he
      apply h2b e
      rw [mem_remoteAfterSync es1 fetch1 herr1 e]
      rwa [hsame] at he

theorem C2_sync_idempotent_witness :
    ((({ items := [{ value := "a@x.com" }] } : FetchItemsResult).error = none) ∧
     (({ items := [{ value := "b@x.com" }, { value := "a@x.com" }] } :
         FetchItemsResult).error = none)) ∧
    (syncGatewayListFromKV (some { emails := ["a@x.com"] })
        { items := [{ value := "a@x.com" }] } true =
      ({ success := true, added := 0, removed := 0, totalUsers := 1 }, none) ∧
     syncGatewayListFromKV (some { emails := ["a@x.com", "b@x.com"], lastUpdated := "t2" })
        { items := [{ value := "b@x.com" }, { value := "a@x.com" }] } true =
      ({ success := true, added := 0, removed := 0, totalUsers := 2 }, none)) :=
  ⟨⟨rfl, rfl⟩, by
    have h := C2_sync_idempotent
      { emails := ["a@x.com"] } { items := [{ value := "a@x.com" }] } rfl
      (by decide) (by decide)
      { emails := ["a@x.com", "b@x.com"] }
      { emails := ["a@x.com", "b@x.com"], lastUpdated := "t2" }
      { items := [{ value := "b@x.com" }, { value := "c@x.com" }] }
      { items := [{ value := "b@x.com" }, { value := "a@x.com" }] }
      rfl rfl rfl (by decide) (by decide)
    simpa using h⟩

/-- C7: when the stored expected state is present with an empty email set
and the remote membership is non-empty, `syncGatewayListFromKV` does not
skip the cycle: it issues a PATCH whose `remove` array is the entire
(deduplicated) remote membership and whose `append` array is empty,
reports success, and the faithfully applied patch leaves the remote list
empty. -/
theorem C7_empty_expected_drives_remote_empty
    (es : ExpectedState) (fetch : FetchItemsResult)
    (hempty : es.emails = []) (herr : fetch.error = none)
    (hne : fetch.items ≠ []) :
    (syncGatewayListFromKV (some es) fetch true).2 =
      some { append := []
             remove := (fetch.items.map (fun item => item.value)).dedup } ∧
    (syncGatewayListFromKV (some es) fetch true).1.success = true ∧
    remoteAfterSync (fetch.items.map (fun item => item.value))
        (syncGatewayListFromKV (some es) fetch true).2 = [] := by
  have hA : fetch.items.map (fun item => item.value) ≠ [] := by
    intro h
    exact hne (List.map_eq_nil_iff.mp h)
  have htoAdd : emailsToAdd es.emails (fetch.items.map (fun item => item.value)) = [] := by
    simp [emailsToAdd, hempty]
  have htoRem : emailsToRemove es.emails (fetch.items.map (fun item => item.value)) =
      (fetch.items.map (fun item => item.value)).dedup := by
    simp [emailsToRemove, hempty]
  have hlen : ((fetch.items.map (fun item => item.value)).dedup).length > 0 :=
    List.length_pos.mpr (by simpa [List.dedup_eq_nil] using hA)
  have hsync : syncGatewayListFromKV (some es) fetch true =
      ({ success := true, added := 0,
         removed := ((fetch.items.map (fun item => item.value)).dedup).length
         totalUsers := es.emails.length },
       some { append := []
              remove := (fetch.items.map (fun item => item.value)).dedup }) := by
    simp only [syncGatewayListFromKV, herr, htoAdd, htoRem]
    rw [if_pos (Or.inr hlen)]
    simp
  refine ⟨by rw [hsync], by rw [hsync], ?_⟩
  rw [hsync]
  simp only [remoteAfterSync, applyPatch, List.map_nil, List.append_nil]
  rw [List.filter_eq_nil_iff]
  intro v hv
  simp [List.elem_iff, List.mem_dedup, hv]

theorem C7_empty_expected_drives_remote_empty_witness :
    (({ emails := [] } : ExpectedState).emails = [] ∧
     ({ items := [{ value := "d@x.com" }] } : FetchItemsResult).error = none ∧
     ({ items := [{ value := "d@x.com" }] } : FetchItemsResult).items ≠ []) ∧
    ((syncGatewayListFromKV (some { emails := [] })
        { items := [{ value := "d@x.com" }] } true).2 =
       some { append := [], remove := ["d@x.com"] } ∧
     (syncGatewayListFromKV (some { emails := [] })
        { items := [{ value := "d@x.com" }] } true).1.success = true ∧
     remoteAfterSync (({ items := [{ value := "d@x.com" }] } :
          FetchItemsResult).items.map (fun item => item.value))
        (syncGatewayListFromKV (some { emails := [] })
          { items := [{ value := "d@x.com" }] } true).2 = []) :=
  ⟨⟨rfl, rfl, by decide⟩, by
    have h := C7_empty_expected_drives_remote_empty
      { emails := [] } { items := [{ value := "d@x.com" }] } rfl rfl (by decide)
    simpa using h⟩

/-- Line 239: `userRiskScores.filter` keeping records whose `max_risk_level` is `high`. -/
def highRiskUsers (userRiskScores : List UserRecord) : List UserRecord :=
  userRiskScores.filter (fun user => user.max_risk_level == "high")

/-- Line 240: `userRiskScores.filter` keeping records whose `max_risk_level` is `medium`. -/
def mediumRiskUsers (userRiskScores : List UserRecord) : List UserRecord :=
  userRiskScores.filter (fun user => user.max_risk_level == "medium")

/-- Line 241: `userRiskScores.filter` keeping records whose `max_risk_level` is `low`. -/
def lowRiskUsers (userRiskScores : List UserRecord) : List UserRecord :=
  userRiskScores.filter (fun user => user.max_risk_level == "low")

/-- C6: a fetched user record whose `max_risk_level` is one of the three
tier values lands in exactly one of the three filtered tier lists — the
one matching that field — and, when records agree on the classification
of each email (the field is single-valued per user), no email appears in
the stored expected email sets of two different tiers. -/
theorem C6_tier_exclusivity
    (userRiskScores : List UserRecord) (u : UserRecord) (hu : u ∈ userRiskScores)
    (hlvl : u.max_risk_level = "high" ∨ u.max_risk_level = "medium" ∨
      u.max_risk_level = "low")
    (e t : String)
    (hsingle : ∀ v ∈ userRiskScores, ∀ w ∈ userRiskScores,
      v.email = w.email → v.max_risk_level = w.max_risk_level) :
    ((u ∈ highRiskUsers userRiskScores ↔ u.max_risk_level = "high") ∧
     (u ∈ mediumRiskUsers userRiskScores ↔ u.max_risk_level = "medium") ∧
     (u ∈ lowRiskUsers userRiskScores ↔ u.max_risk_level = "low")) ∧
    ((u ∈ highRiskUsers userRiskScores ∧ u ∉ mediumRiskUsers userRiskScores ∧
        u ∉ lowRiskUsers userRiskScores) ∨
     (u ∉ highRiskUsers userRiskScores ∧ u ∈ mediumRiskUsers userRiskScores ∧
        u ∉ lowRiskUsers userRiskScores) ∨
     (u ∉ highRiskUsers userRiskScores ∧ u ∉ mediumRiskUsers userRiskScores ∧
        u ∈ lowRiskUsers userRiskScores)) ∧
    (¬(e ∈ (storeExpectedStateInKV (highRiskUsers userRiskScores) "high" t).emails ∧
        e ∈ (storeExpectedStateInKV (mediumRiskUsers userRiskScores) "medium" t).emails) ∧
     ¬(e ∈ (storeExpectedStateInKV (highRiskUsers userRiskScores) "high" t).emails ∧
        e ∈ (storeExpectedStateInKV (lowRiskUsers userRiskScores) "low" t).emails) ∧
     ¬(e ∈ (storeExpectedStateInKV (mediumRiskUsers userRiskScores) "medium" t).emails ∧
        e ∈ (storeExpectedStateInKV (lowRiskUsers userRiskScores) "low" t).emails)) := by
  have hmemH : ∀ w : UserRecord, w ∈ highRiskUsers userRiskScores ↔
      w ∈ userRiskScores ∧ w.max_risk_level = "high" := by
    intro w
    simp [highRiskUsers, List.mem_filter]
  have hmemM : ∀ w : UserRecord, w ∈ mediumRiskUsers userRiskScores ↔
      w ∈ userRiskScores ∧ w.max_risk_level = "medium" := by
    intro w
    simp [mediumRiskUsers, List.mem_filter]
  have hmemL : ∀ w : UserRecord, w ∈ lowRiskUsers userRiskScores ↔
      w ∈ userRiskScores ∧ w.max_risk_level = "low" := by
    intro w
    simp [lowRiskUsers, List.mem_filter]
  have hpair : ∀ (l1 l2 lv1 lv2 : _), lv1 ≠ lv2 →
      (∀ w : UserRecord, w ∈ l1 ↔ w ∈ userRiskScores ∧ w.max_risk_level = lv1) →
      (∀ w : UserRecord, w ∈ l2 ↔ w ∈ userRiskScores ∧ w.max_risk_level = lv2) →
      ¬(e ∈ (storeExpectedStateInKV l1 lv1 t).emails ∧
        e ∈ (storeExpectedStateInKV l2 lv2 t).emails) := by
    intro l1 l2 lv1 lv2 hne h1 h2 ⟨he1, he2⟩
    simp only [storeExpectedStateInKV, List.mem_map] at he1 he2
    obtain ⟨v, hv, hve⟩ := he1
    obtain ⟨w, hw, hwe⟩ := he2
    rw [h1] at hv
    rw [h2] at hw
    have := hsingle v hv.1 w hw.1 (hve.trans hwe.symm)
    rw [hv.2, hw.2] at this
    exact hne this
  refine ⟨⟨by rw [hmemH]; tauto, by rw [hmemM]; tauto, by rw [hmemL]; tauto⟩, ?_, ?_, ?_, ?_⟩
  · rcases hlvl with h | h | h
    · exact Or.inl ⟨(hmemH u).mpr ⟨hu, h⟩,
        fun hc => by simp [hmemM, h] at hc, fun hc => by simp [hmemL, h] at hc⟩
    · exact Or.inr (Or.inl ⟨fun hc => by simp [hmemH, h] at hc,
        (hmemM u).mpr ⟨hu, h⟩, fun hc => by simp [hmemL, h] at hc⟩)
    · exact Or.inr (Or.inr ⟨fun hc => by simp [hmemH, h] at hc,
        fun hc => by simp [hmemM, h] at hc, (hmemL u).mpr ⟨hu, h⟩⟩)
  · exact hpair _ _ _ _ (by decide) hmemH hmemM
  · exact hpair _ _ _ _ (by decide) hmemH hmemL
  · exact hpair _ _ _ _ (by decide) hmemM hmemL

theorem C6_tier_exclusivity_witness :
    ((⟨"a@x.com", "high"⟩ : UserRecord) ∈
        [(⟨"a@x.com", "high"⟩ : UserRecord), ⟨"b@x.com", "medium"⟩, ⟨"c@x.com", "low"⟩] ∧
     (⟨"a@x.com", "high"⟩ : UserRecord).max_risk_level = "high") ∧
    ((((⟨"a@x.com", "high"⟩ : UserRecord) ∈ highRiskUsers
          [⟨"a@x.com", "high"⟩, ⟨"b@x.com", "medium"⟩, ⟨"c@x.com", "low"⟩] ↔
        (⟨"a@x.com", "high"⟩ : UserRecord).max_risk_level = "high") ∧
      ((⟨"a@x.com", "high"⟩ : UserRecord) ∈ mediumRiskUsers
          [⟨"a@x.com", "high"⟩, ⟨"b@x.com", "medium"⟩, ⟨"c@x.com", "low"⟩] ↔
        (⟨"a@x.com", "high"⟩ : UserRecord).max_risk_level = "medium") ∧
      ((⟨"a@x.com", "high"⟩ : UserRecord) ∈ lowRiskUsers
          [⟨"a@x.com", "high"⟩, ⟨"b@x.com", "medium"⟩, ⟨"c@x.com", "low"⟩] ↔
        (⟨"a@x.com", "high"⟩ : UserRecord).max_risk_level = "low")) ∧
     (((⟨"a@x.com", "high"⟩ : UserRecord) ∈ highRiskUsers
          [⟨"a@x.com", "high"⟩, ⟨"b@x.com", "medium"⟩, ⟨"c@x.com", "low"⟩] ∧
       (⟨"a@x.com", "high"⟩ : UserRecord) ∉ mediumRiskUsers
          [⟨"a@x.com", "high"⟩, ⟨"b@x.com", "medium"⟩, ⟨"c@x.com", "low"⟩] ∧
       (⟨"a@x.com", "high"⟩ : UserRecord) ∉ lowRiskUsers
          [⟨"a@x.com", "high"⟩, ⟨"b@x.com", "medium"⟩, ⟨"c@x.com", "low"⟩]) ∨
      ((⟨"a@x.com", "high"⟩ : UserRecord) ∉ highRiskUsers
          [⟨"a@x.com", "high"⟩, ⟨"b@x.com", "medium"⟩, ⟨"c@x.com", "low"⟩] ∧
       (⟨"a@x.com", "high"⟩ : UserRecord) ∈ mediumRiskUsers
          [⟨"a@x.com", "high"⟩, ⟨"b@x.com", "medium"⟩, ⟨"c@x.com", "low"⟩] ∧
       (⟨"a@x.com", "high"⟩ : UserRecord) ∉ lowRiskUsers
          [⟨"a@x.com", "high"⟩, ⟨"b@x.com", "medium"⟩, ⟨"c@x.com", "low"⟩]) ∨
      ((⟨"a@x.com", "high"⟩ : UserRecord) ∉ highRiskUsers
          [⟨"a@x.com", "high"⟩, ⟨"b@x.com", "medium"⟩, ⟨"c@x.com", "low"⟩] ∧
       (⟨"a@x.com", "high"⟩ : UserRecord) ∉ mediumRiskUsers
          [⟨"a@x.com", "high"⟩, ⟨"b@x.com", "medium"⟩, ⟨"c@x.com", "low"⟩] ∧
       (⟨"a@x.com", "high"⟩ : UserRecord) ∈ lowRiskUsers
          [⟨"a@x.com", "high"⟩, ⟨"b@x.com", "medium"⟩, ⟨"c@x.com", "low"⟩])) ∧
     (¬("a@x.com" ∈ (storeExpectedStateInKV (highRiskUsers
            [⟨"a@x.com", "high"⟩, ⟨"b@x.com", "medium"⟩, ⟨"c@x.com", "low"⟩])
            "high" "t0").emails ∧
        "a@x.com" ∈ (storeExpectedStateInKV (mediumRiskUsers
            [⟨"a@x.com", "high"⟩, ⟨"b@x.com", "medium"⟩, ⟨"c@x.com", "low"⟩])
            "medium" "t0").emails) ∧
      ¬("a@x.com" ∈ (storeExpectedStateInKV (highRiskUsers
            [⟨"a@x.com", "high"⟩, ⟨"b@x.com", "medium"⟩, ⟨"c@x.com", "low"⟩])
            "high" "t0").emails ∧
        "a@x.com" ∈ (storeExpectedStateInKV (lowRiskUsers
            [⟨"a@x.com", "high"⟩, ⟨"b@x.com", "medium"⟩, ⟨"c@x.com", "low"⟩])
            "low" "t0").emails) ∧
      ¬("a@x.com" ∈ (storeExpectedStateInKV (mediumRiskUsers
            [⟨"a@x.com", "high"⟩, ⟨"b@x.com", "medium"⟩, ⟨"c@x.com", "low"⟩])
            "medium" "t0").emails ∧
        "a@x.com" ∈ (storeExpectedStateInKV (lowRiskUsers
            [⟨"a@x.com", "high"⟩, ⟨"b@x.com", "medium"⟩, ⟨"c@x.com", "low"⟩])
            "low" "t0").emails))) :=
  ⟨⟨by decide, rfl⟩,
   C6_tier_exclusivity
     [⟨"a@x.com", "high"⟩, ⟨"b@x.com", "medium"⟩, ⟨"c@x.com", "low"⟩]
     ⟨"a@x.com", "high"⟩ (by decide) (Or.inl rfl) "a@x.com" "t0" (by decide)⟩

/-- An HTTP response as seen by `makeApiRequest`: a status code and the
optional numeric Retry-After header. -/
structure HttpResponse where
  status : Nat
  retryAfter : Option Nat := none
deriving DecidableEq, Repr

/-- What one `fetch` call delivers: a response, or a thrown network
error. -/
inductive FetchOutcome where
  | resp (response : HttpResponse)
  | err (msg : String)
deriving DecidableEq, Repr

/-- How `makeApiRequest` finishes: it returns a response, the thrown
error propagates out on the last attempt, or — when the retry loop
exhausts all attempts via `continue` — control falls off the end of the
function and JavaScript returns `undefined`. -/
inductive ApiResult where
  | returned (response : HttpResponse)
  | threw (msg : String)
  | undefinedReturn
deriving DecidableEq, Repr

/-- The observable run of `makeApiRequest`: how it finished, how many
`fetch` calls it made, and the milliseconds slept before each retry, in
order. -/
structure ApiRun where
  result : ApiResult
  attempts : Nat
  waits : List Nat
deriving DecidableEq, Repr

/-- One iteration of the retry loop of `makeApiRequest`
(lines 1058-1087), indexed by the current `attempt`; `fuel` counts the
remaining iterations allowed by the loop guard `attempt <= maxRetries`
(the top-level call supplies `fuel = maxRetries`, so `fuel = 0` exactly
when `attempt = maxRetries + 1` and the loop exits, returning
`undefined`).  On 429 the wait is `retryAfter * 1000` ms with
`retryAfter` the header value or `2 ^ attempt`; on status ≥ 500 with
`attempt < maxRetries` the wait is `2 ^ attempt * 1000` ms; any other
status returns the raw response; a thrown network error re-throws on the
last attempt and otherwise waits `2 ^ attempt * 1000` ms. -/
def makeApiRequestGo (responses : Nat → FetchOutcome) (maxRetries : Nat) :
    Nat → Nat → ApiRun
  | _, 0 => { result := .undefinedReturn, attempts := 0, waits := [] }
  | attempt, fuel + 1 =>
    match responses attempt with
    | .resp response =>
      if response.status = 429 then
        let retryAfter := response.retryAfter.getD (2 ^ attempt)
        let rest := makeApiRequestGo responses maxRetries (attempt + 1) fuel
        { result := rest.result
          attempts := rest.attempts + 1
          waits := retryAfter * 1000 :: rest.waits }
      else if 500 ≤ response.status ∧ attempt < maxRetries then
        let rest := makeApiRequestGo responses maxRetries (attempt + 1) fuel
        { result := rest.result
          attempts := rest.attempts + 1
          waits := 2 ^ attempt * 1000 :: rest.waits }
      else
        { result := .returned response, attempts := 1, waits := [] }
    | .err msg =>
      if attempt = maxRetries then
        { result := .threw msg, attempts := 1, waits := [] }
      else
        let rest := makeApiRequestGo responses maxRetries (attempt + 1) fuel
        { result := rest.result
          attempts := rest.attempts + 1
          waits := 2 ^ attempt * 1000 :: rest.waits }

/-- Shallow embedding of `makeApiRequest(url, options, maxRetries = 3)`:
the loop `for (let attempt = 1; attempt <= maxRetries; attempt++)`
started at attempt 1 with `maxRetries` iterations available. -/
def makeApiRequest (responses : Nat → FetchOutcome) (maxRetries : Nat := 3) : ApiRun :=
  makeApiRequestGo responses maxRetries 1 maxRetries

theorem makeApiRequestGo_all429 (ra : Nat → Option Nat)
    (responses : Nat → FetchOutcome)
    (h : ∀ a, responses a = .resp { status := 429, retryAfter := ra a })
    (maxRetries : Nat) :
    ∀ fuel attempt, makeApiRequestGo responses maxRetries attempt fuel =
      { result := .undefinedReturn
        attempts := fuel
        waits := (List.range' attempt fuel).map
          (fun a => (ra a).getD (2 ^ a) * 1000) } := by
  intro fuel
  induction fuel with
  | zero => intro attempt; rfl
  | succ n ih =>
    intro attempt
    simp only [makeApiRequestGo, h attempt, ih (attempt + 1), List.range'_succ]
    simp

/-- C4: against an endpoint answering 429 on every attempt (with
arbitrary per-attempt Retry-After headers `ra`), `makeApiRequest`
performs exactly `maxRetries` fetch attempts, no more, and before each
retry sleeps the Retry-After header value when present and `2 ^ attempt`
seconds when absent (recorded here in milliseconds as the code passes
them to `setTimeout`). -/
theorem C4_retry_bound_429 (ra : Nat → Option Nat) (maxRetries : Nat) :
    (makeApiRequest (fun a => .resp { status := 429, retryAfter := ra a })
        maxRetries).attempts = maxRetries ∧
    (makeApiRequest (fun a => .resp { status := 429, retryAfter := ra a })
        maxRetries).waits =
      (List.range' 1 maxRetries).map (fun a => (ra a).getD (2 ^ a) * 1000) := by
  rw [makeApiRequest,
    makeApiRequestGo_all429 ra _ (fun a => rfl) maxRetries maxRetries 1]
  exact ⟨rfl, rfl⟩

theorem makeApiRequestGo_all5xx (k maxRetries : Nat) :
    ∀ fuel attempt, attempt + fuel = maxRetries + 1 → 1 ≤ fuel →
      (makeApiRequestGo (fun _ => .resp { status := 500 + k })
          maxRetries attempt fuel).result = .returned { status := 500 + k } ∧
      (makeApiRequestGo (fun _ => .resp { status := 500 + k })
          maxRetries attempt fuel).attempts = fuel := by
  intro fuel
  induction fuel with
  | zero => intro attempt _ h1; exact absurd h1 (by omega)
  | succ n ih =>
    intro attempt hsum _
    match n, ih with
    | 0, _ =>
      have hge : ¬(500 + k = 429) := by omega
      have hlt : ¬(500 ≤ 500 + k ∧ attempt < maxRetries) := by omega
      rw [makeApiRequestGo.eq_def]
      dsimp only
      rw [if_neg hge, if_neg hlt]
      exact ⟨rfl, rfl⟩
    | m + 1, ih =>
      have hge : ¬(500 + k = 429) := by omega
      have hlt : 500 ≤ 500 + k ∧ attempt < maxRetries := by omega
      have hrec := ih (attempt + 1) (by omega) (by omega)
      rw [makeApiRequestGo.eq_def]
      dsimp only
      rw [if_neg hge, if_pos hlt]
      exact ⟨hrec.1, by rw [hrec.2]⟩

/-- C10: when every attempt yields HTTP 429, `makeApiRequest` finishes
by falling off the end of the exhausted retry loop, i.e. it returns
JavaScript `undefined` — neither a Response object nor a thrown error —
whereas when every attempt yields a status ≥ 500 the final attempt
returns the last raw response. -/
theorem C10_429_exhaustion_returns_undefined (ra : Nat → Option Nat)
    (k maxRetries : Nat) :
    (makeApiRequest (fun a => .resp { status := 429, retryAfter := ra a })
        maxRetries).result = .undefinedReturn ∧
    (makeApiRequest (fun _ => .resp { status := 500 + k })
        (maxRetries + 1)).result = .returned { status := 500 + k } := by
  constructor
  · rw [makeApiRequest,
      makeApiRequestGo_all429 ra _ (fun a => rfl) maxRetries maxRetries 1]
  · exact (makeApiRequestGo_all5xx k (maxRetries + 1) (maxRetries + 1) 1
      (by omega) (by omega)).1

/-- The `result_info` object of a paginated Cloudflare API response. -/
structure ResultInfo where
  page : Nat
  total_pages : Nat
deriving DecidableEq, Repr

/-- One page-level interaction as seen by the paginated fetchers: either
the parsed JSON body (`data.success`, the result items, the optional
`data.result_info`), or an error thrown out of `makeApiRequest` /
`response.json()`. -/
inductive PageOutcome (α : Type) where
  | body (success : Bool) (result : List α) (result_info : Option ResultInfo)
  | thrown (msg : String)
deriving DecidableEq, Repr

/-- Lines 1122-1123 / 1179-1180:
`hasMore = resultInfo.page < resultInfo.total_pages` with
`resultInfo = data.result_info || {}`; when `result_info` is absent both
operands are `undefined` and the JavaScript comparison is false. -/
def hasMoreOf (info : Option ResultInfo) : Bool :=
  match info with
  | some ri => ri.page < ri.total_pages
  | none => false

/-- The `pagination` object returned by `fetchAllUserRiskScores`. -/
structure RiskPagination where
  totalUsers : Nat
  totalRequests : Nat
  pagesProcessed : Nat
deriving DecidableEq, Repr

/-- The object returned by `fetchAllUserRiskScores`: on any page with
`success: false` or on a thrown error the whole fetch fails
(`success: false`, no `users`, no `pagination`, an opaque `errors`
payload modelled as a message); otherwise all accumulated users are
returned. -/
structure FetchRiskResult where
  success : Bool
  users : List UserRecord := []
  pagination : Option RiskPagination := none
  errors : Option String := none
deriving DecidableEq, Repr

/-- One pass of the `while (hasMore && totalRequests < 100)` loop of
`fetchAllUserRiskScores` (lines 1099-1130), entered with `hasMore` true;
`fuel` encodes the guard `totalRequests < 100` (the top call supplies
`fuel = 100`, and `fuel`, `totalRequests` move in lockstep).  The second
component counts the page requests issued. -/
def fetchAllUserRiskScoresGo (pages : Nat → PageOutcome UserRecord) :
    List UserRecord → Nat → Nat → Nat → FetchRiskResult × Nat
  | allUsers, page, totalRequests, 0 =>
    ({ success := true, users := allUsers
       pagination := some { totalUsers := allUsers.length
                            totalRequests := totalRequests
                            pagesProcessed := page - 1 } }, 0)
  | allUsers, page, totalRequests, fuel + 1 =>
    match pages page with
    | .thrown msg => ({ success := false, errors := some msg }, 1)
    | .body success result info =>
      if success then
        if hasMoreOf info then
          let rec1 := fetchAllUserRiskScoresGo pages (allUsers ++ result)
            (page + 1) (totalRequests + 1) fuel
          (rec1.1, rec1.2 + 1)
        else
          ({ success := true, users := allUsers ++ result
             pagination := some { totalUsers := (allUsers ++ result).length
                                  totalRequests := totalRequests + 1
                                  pagesProcessed := page } }, 1)
      else
        ({ success := false, errors := some "risk API reported failure" }, 1)

/-- Shallow embedding of `fetchAllUserRiskScores` (lines 1091-1144):
page 1, zero requests so far, safety bound 100. -/
def fetchAllUserRiskScores (pages : Nat → PageOutcome UserRecord) :
    FetchRiskResult × Nat :=
  fetchAllUserRiskScoresGo pages [] 1 0 100

/-- One pass of the `while (hasMore && totalRequests < 50)` loop of
`fetchGatewayListItems` (lines 1155-1187), entered with `hasMore` true;
`fuel` encodes the guard `totalRequests < 50`.  A `success: false` body
executes `break`, returning the items accumulated so far (without the
failed page) and no `error`; a thrown error is caught at line 1199 and
returns an empty `items` array with the `error` message.  The second
component counts the page requests issued. -/
def fetchGatewayListItemsGo (pages : Nat → PageOutcome GatewayItem) :
    List GatewayItem → Nat → Nat → Nat → FetchItemsResult × Nat
  | allItems, page, totalRequests, 0 =>
    ({ items := allItems
       pagination := some { totalItems := allItems.length
                            totalRequests := totalRequests
                            pagesProcessed := page - 1 } }, 0)
  | allItems, page, totalRequests, fuel + 1 =>
    match pages page with
    | .thrown msg => ({ items := [], error := some msg }, 1)
    | .body success result info =>
      if success then
        if hasMoreOf info then
          let rec1 := fetchGatewayListItemsGo pages (allItems ++ result)
            (page + 1) (totalRequests + 1) fuel
          (rec1.1, rec1.2 + 1)
        else
          ({ items := allItems ++ result
             pagination := some { totalItems := (allItems ++ result).length
                                  totalRequests := totalRequests + 1
                                  pagesProcessed := page } }, 1)
      else
        ({ items := allItems
           pagination := some { totalItems := allItems.length
                                totalRequests := totalRequests + 1
                                pagesProcessed := page - 1 } }, 1)

/-- Shallow embedding of `fetchGatewayListItems` (lines 1147-1207):
page 1, zero requests so far, safety bound 50. -/
def fetchGatewayListItems (pages : Nat → PageOutcome GatewayItem) :
    FetchItemsResult × Nat :=
  fetchGatewayListItemsGo pages [] 1 0 50

theorem fetchAllUserRiskScoresGo_le (pages : Nat → PageOutcome UserRecord) :
    ∀ fuel allUsers page totalRequests,
      (fetchAllUserRiskScoresGo pages allUsers page totalRequests fuel).2 ≤ fuel := by
  intro fuel
  induction fuel with
  | zero => intro _ _ _; exact Nat.le_refl 0
  | succ n ih =>
    intro allUsers page totalRequests
    rw [fetchAllUserRiskScoresGo.eq_def]
    dsimp only
    match pages page with
    | .thrown msg => simp
    | .body success result info =>
      dsimp only
      split_ifs with h1 h2
      · exact Nat.succ_le_succ (ih (allUsers ++ result) (page + 1) (totalRequests + 1))
      · simp
      · simp

theorem fetchGatewayListItemsGo_le (pages : Nat → PageOutcome GatewayItem) :
    ∀ fuel allItems page totalRequests,
      (fetchGatewayListItemsGo pages allItems page totalRequests fuel).2 ≤ fuel := by
  intro fuel
  induction fuel with
  | zero => intro _ _ _; exact Nat.le_refl 0
  | succ n ih =>
    intro allItems page totalRequests
    rw [fetchGatewayListItemsGo.eq_def]
    dsimp only
    match pages page with
    | .thrown msg => simp
    | .body success result info =>
      dsimp only
      split_ifs with h1 h2
      · exact Nat.succ_le_succ (ih (allItems ++ result) (page + 1) (totalRequests + 1))
      · simp
      · simp

theorem fetchAllUserRiskScoresGo_neverStop (us : Nat → List UserRecord) (d : Nat → Nat) :
    ∀ fuel allUsers page totalRequests,
      (fetchAllUserRiskScoresGo
        (fun p => .body true (us p) (some { page := p, total_pages := p + 1 + d p }))
        allUsers page totalRequests fuel).2 = fuel := by
  intro fuel
  induction fuel with
  | zero => intro _ _ _; rfl
  | succ n ih =>
    intro allUsers page totalRequests
    have hm : page < page + 1 + d page := by omega
    simp only [fetchAllUserRiskScoresGo]
    simp [hasMoreOf, hm, ih]

theorem fetchGatewayListItemsGo_neverStop (gs : Nat → List GatewayItem) (d : Nat → Nat) :
    ∀ fuel allItems page totalRequests,
      (fetchGatewayListItemsGo
        (fun p => .body true (gs p) (some { page := p, total_pages := p + 1 + d p }))
        allItems page totalRequests fuel).2 = fuel := by
  intro fuel
  induction fuel with
  | zero => intro _ _ _; rfl
  | succ n ih =>
    intro allItems page totalRequests
    have hm : page < page + 1 + d page := by omega
    simp only [fetchGatewayListItemsGo]
    simp [hasMoreOf, hm, ih]

theorem fetchAllUserRiskScoresGo_stopAt (us : Nat → List UserRecord) (K : Nat) :
    ∀ fuel page, page ≤ K → K - page + 1 ≤ fuel →
      ∀ allUsers totalRequests,
      (fetchAllUserRiskScoresGo
        (fun p => .body true (us p) (some { page := p, total_pages := K }))
        allUsers page totalRequests fuel).2 = K - page + 1 := by
  intro fuel
  induction fuel with
  | zero => intro page h1 h2 _ _; omega
  | succ n ih =>
    intro page hpK hfuel allUsers totalRequests
    simp only [fetchAllUserRiskScoresGo]
    by_cases hlt : page < K
    · have hrec := ih (page + 1) (by omega) (by omega) (allUsers ++ us page)
        (totalRequests + 1)
      simp [hasMoreOf, hlt, hrec]
      omega
    · have hm : ¬(page < K) := hlt
      simp [hasMoreOf, hm]
      omega

theorem fetchGatewayListItemsGo_stopAt (gs : Nat → List GatewayItem) (K : Nat) :
    ∀ fuel page, page ≤ K → K - page + 1 ≤ fuel →
      ∀ allItems totalRequests,
      (fetchGatewayListItemsGo
        (fun p => .body true (gs p) (some { page := p, total_pages := K }))
        allItems page totalRequests fuel).2 = K - page + 1 := by
  intro fuel
  induction fuel with
  | zero => intro page h1 h2 _ _; omega
  | succ n ih =>
    intro page hpK hfuel allItems totalRequests
    simp only [fetchGatewayListItemsGo]
    by_cases hlt : page < K
    · have hrec := ih (page + 1) (by omega) (by omega) (allItems ++ gs page)
        (totalRequests + 1)
      simp [hasMoreOf, hlt, hrec]
      omega
    · have hm : ¬(page < K) := hlt
      simp [hasMoreOf, hm]
      omega

/-- C5: every risk-score fetch issues at most 100 page requests and every
list-items fetch at most 50, whatever the source does; a source that
always reports `current_page < total_pages` is asked exactly the safety
bound (100, resp. 50) and the fetch then terminates; and a source that
reports `total_pages = K` stops at page K — whichever bound is reached
first. -/
theorem C5_pagination_safety_bound
    (riskPages : Nat → PageOutcome UserRecord)
    (itemPages : Nat → PageOutcome GatewayItem)
    (us : Nat → List UserRecord) (gs : Nat → List GatewayItem)
    (dR dI : Nat → Nat) (K L : Nat)
    (hK1 : 1 ≤ K) (hK2 : K ≤ 100) (hL1 : 1 ≤ L) (hL2 : L ≤ 50) :
    (fetchAllUserRiskScores riskPages).2 ≤ 100 ∧
    (fetchGatewayListItems itemPages).2 ≤ 50 ∧
    (fetchAllUserRiskScores
      (fun p => .body true (us p) (some { page := p, total_pages := p + 1 + dR p }))).2
        = 100 ∧
    (fetchGatewayListItems
      (fun p => .body true (gs p) (some { page := p, total_pages := p + 1 + dI p }))).2
        = 50 ∧
    (fetchAllUserRiskScores
      (fun p => .body true (us p) (some { page := p, total_pages := K }))).2 = K ∧
    (fetchGatewayListItems
      (fun p => .body true (gs p) (some { page := p, total_pages := L }))).2 = L := by
  refine ⟨fetchAllUserRiskScoresGo_le riskPages 100 [] 1 0,
    fetchGatewayListItemsGo_le itemPages 50 [] 1 0,
    fetchAllUserRiskScoresGo_neverStop us dR 100 [] 1 0,
    fetchGatewayListItemsGo_neverStop gs dI 50 [] 1 0, ?_, ?_⟩
  · have h := fetchAllUserRiskScoresGo_stopAt us K 100 1 hK1 (by omega) [] 0
    rw [fetchAllUserRiskScores, h]
    omega
  · have h := fetchGatewayListItemsGo_stopAt gs L 50 1 hL1 (by omega) [] 0
    rw [fetchGatewayListItems, h]
    omega

theorem C5_pagination_safety_bound_witness :
    (1 ≤ 3 ∧ 3 ≤ 100 ∧ 1 ≤ 2 ∧ 2 ≤ 50) ∧
    ((fetchAllUserRiskScores (fun _ => .body true [] none)).2 ≤ 100 ∧
     (fetchGatewayListItems (fun _ => .body true [] none)).2 ≤ 50 ∧
     (fetchAllUserRiskScores
       (fun p => .body true [] (some { page := p, total_pages := p + 1 + 0 }))).2 = 100 ∧
     (fetchGatewayListItems
       (fun p => .body true [] (some { page := p, total_pages := p + 1 + 0 }))).2 = 50 ∧
     (fetchAllUserRiskScores
       (fun p => .body true [] (some { page := p, total_pages := 3 }))).2 = 3 ∧
     (fetchGatewayListItems
       (fun p => .body true [] (some { page := p, total_pages := 2 }))).2 = 2) :=
  ⟨⟨by decide, by decide, by decide, by decide⟩,
   C5_pagination_safety_bound (fun _ => .body true [] none) (fun _ => .body true [] none)
     (fun _ => []) (fun _ => []) (fun _ => 0) (fun _ => 0) 3 2
     (by decide) (by decide) (by decide) (by decide)⟩

/-- A list-items source whose pages before `F` succeed (each reporting
that more pages remain) and whose page `F` returns a parsed body with
`success: false`. -/
def itemsFailAt (gs : Nat → List GatewayItem) (F : Nat) :
    Nat → PageOutcome GatewayItem :=
  fun p => if p < F then .body true (gs p) (some { page := p, total_pages := F + 1 })
    else .body false [] none

/-- A list-items source whose pages before `F` succeed and whose page `F`
throws a network error `msg`. -/
def itemsThrowAt (gs : Nat → List GatewayItem) (F : Nat) (msg : String) :
    Nat → PageOutcome GatewayItem :=
  fun p => if p < F then .body true (gs p) (some { page := p, total_pages := F + 1 })
    else .thrown msg

theorem fetchGatewayListItemsGo_failAt (gs : Nat → List GatewayItem) (F : Nat) :
    ∀ fuel page, page ≤ F → F - page + 1 ≤ fuel → ∀ allItems totalRequests,
      (fetchGatewayListItemsGo (itemsFailAt gs F) allItems page
          totalRequests fuel).1.items =
        allItems ++ ((List.range' page (F - page)).map gs).flatten ∧
      (fetchGatewayListItemsGo (itemsFailAt gs F) allItems page
          totalRequests fuel).1.error = none ∧
      (fetchGatewayListItemsGo (itemsFailAt gs F) allItems page
          totalRequests fuel).2 = F - page + 1 := by
  intro fuel
  induction fuel with
  | zero => intro page h1 h2 _ _; omega
  | succ n ih =>
    intro page hpF hfuel allItems totalRequests
    by_cases hlt : page < F
    · have hm : page < F + 1 := by omega
      have hrec := ih (page + 1) (by omega) (by omega) (allItems ++ gs page)
        (totalRequests + 1)
      have hrange : F - page = (F - (page + 1)) + 1 := by omega
      simp only [fetchGatewayListItemsGo, itemsFailAt, if_pos hlt]
      refine ⟨?_, ?_, ?_⟩
      · simp only [hasMoreOf, hm]
        simp only [hrange, List.range'_succ, List.map_cons, List.flatten_cons]
        simp [hrec.1, List.append_assoc]
      · simp only [hasMoreOf, hm]
        simp [hrec.2.1]
      · simp only [hasMoreOf, hm]
        simp [hrec.2.2]
        omega
    · have hpage : page = F := by omega
      simp only [fetchGatewayListItemsGo, itemsFailAt, if_neg hlt]
      simp [hpage]

theorem fetchGatewayListItemsGo_throwAt (gs : Nat → List GatewayItem) (F : Nat)
    (msg : String) :
    ∀ fuel page, page ≤ F → F - page + 1 ≤ fuel → ∀ allItems totalRequests,
      (fetchGatewayListItemsGo (itemsThrowAt gs F msg) allItems page
          totalRequests fuel).1.items = [] ∧
      (fetchGatewayListItemsGo (itemsThrowAt gs F msg) allItems page
          totalRequests fuel).1.error = some msg ∧
      (fetchGatewayListItemsGo (itemsThrowAt gs F msg) allItems page
          totalRequests fuel).2 = F - page + 1 := by
  intro fuel
  induction fuel with
  | zero => intro page h1 h2 _ _; omega
  | succ n ih =>
    intro page hpF hfuel allItems totalRequests
    by_cases hlt : page < F
    · have hm : page < F + 1 := by omega
      have hrec := ih (page + 1) (by omega) (by omega) (allItems ++ gs page)
        (totalRequests + 1)
      simp only [fetchGatewayListItemsGo, itemsThrowAt, if_pos hlt]
      refine ⟨?_, ?_, ?_⟩
      · simp only [hasMoreOf, hm]
        simp [hrec.1]
      · simp only [hasMoreOf, hm]
        simp [hrec.2.1]
      · simp only [hasMoreOf, hm]
        simp [hrec.2.2]
        omega
    · have hpage : page = F := by omega
      simp only [fetchGatewayListItemsGo, itemsThrowAt, if_neg hlt]
      simp [hpage]

theorem sync_success_of_no_error (es : ExpectedState) (fetch : FetchItemsResult)
    (herr : fetch.error = none) :
    (syncGatewayListFromKV (some es) fetch true).1.success = true := by
  simp only [syncGatewayListFromKV, herr]
  split_ifs <;> rfl

/-- C3 counterexample: a source whose page 1 succeeds with one item and
whose page 2 returns `success: false`.  `fetchGatewayListItems` stops
after 2 requests and returns the partial items with NO error tag —
contradicting the claim that a failed page yields items "together with an
error tag" — and `syncGatewayListFromKV` (which tests only `.error`)
consumes that partial fetch as an authoritative complete list, returning
success. -/
theorem C3_counterexample :
    (fetchGatewayListItems (itemsFailAt (fun _ => [{ value := "a@x.com" }]) 2)).1.items =
      [{ value := "a@x.com" }] ∧
    (fetchGatewayListItems
      (itemsFailAt (fun _ => [{ value := "a@x.com" }]) 2)).1.error = none ∧
    (fetchGatewayListItems (itemsFailAt (fun _ => [{ value := "a@x.com" }]) 2)).2 = 2 ∧
    (syncGatewayListFromKV (some { emails := [] })
      (fetchGatewayListItems (itemsFailAt (fun _ => [{ value := "a@x.com" }]) 2)).1
      true).1.success = true := by
  decide

/-- C3 amended: when a page body reports `success: false` the fetch stops
paginating early and returns the items collected on the earlier pages
with NO error tag (and no success flag), and when a page request throws a
network error the fetch returns an EMPTY items array tagged with the
error, discarding the items already collected; in both cases exactly `F`
page requests are issued, and a caller that tests only the `error` field
— `syncGatewayListFromKV` — accepts the untagged partial fetch as
authoritative and reports success. -/
theorem C3_amended_partial_fetch (gs : Nat → List GatewayItem) (F : Nat)
    (msg : String) (es : ExpectedState) (hF1 : 1 ≤ F) (hF2 : F ≤ 50) :
    (fetchGatewayListItems (itemsFailAt gs F)).1.items =
      ((List.range' 1 (F - 1)).map gs).flatten ∧
    (fetchGatewayListItems (itemsFailAt gs F)).1.error = none ∧
    (fetchGatewayListItems (itemsFailAt gs F)).2 = F ∧
    (fetchGatewayListItems (itemsThrowAt gs F msg)).1.items = [] ∧
    (fetchGatewayListItems (itemsThrowAt gs F msg)).1.error = some msg ∧
    (fetchGatewayListItems (itemsThrowAt gs F msg)).2 = F ∧
    (syncGatewayListFromKV (some es) (fetchGatewayListItems (itemsFailAt gs F)).1
      true).1.success = true := by
  have hfail := fetchGatewayListItemsGo_failAt gs F 50 1 hF1 (by omega) [] 0
  have hthrow := fetchGatewayListItemsGo_throwAt gs F msg 50 1 hF1 (by omega) [] 0
  refine ⟨?_, hfail.2.1, ?_, hthrow.1, hthrow.2.1, ?_, ?_⟩
  · rw [fetchGatewayListItems, hfail.1]
    simp
  · rw [fetchGatewayListItems, hfail.2.2]
    omega
  · rw [fetchGatewayListItems, hthrow.2.2]
    omega
  · exact sync_success_of_no_error es _ hfail.2.1

theorem C3_amended_partial_fetch_witness :
    (1 ≤ 2 ∧ 2 ≤ 50) ∧
    ((fetchGatewayListItems (itemsFailAt (fun _ => [{ value := "p@x.com" }]) 2)).1.items =
       ((List.range' 1 (2 - 1)).map (fun _ => [{ value := "p@x.com" }])).flatten ∧
     (fetchGatewayListItems
       (itemsFailAt (fun _ => [{ value := "p@x.com" }]) 2)).1.error = none ∧
     (fetchGatewayListItems (itemsFailAt (fun _ => [{ value := "p@x.com" }]) 2)).2 = 2 ∧
     (fetchGatewayListItems
       (itemsThrowAt (fun _ => [{ value := "p@x.com" }]) 2 "boom")).1.items = [] ∧
     (fetchGatewayListItems
       (itemsThrowAt (fun _ => [{ value := "p@x.com" }]) 2 "boom")).1.error =
         some "boom" ∧
     (fetchGatewayListItems
       (itemsThrowAt (fun _ => [{ value := "p@x.com" }]) 2 "boom")).2 = 2 ∧
     (syncGatewayListFromKV (some { emails := ["p@x.com"] })
       (fetchGatewayListItems (itemsFailAt (fun _ => [{ value := "p@x.com" }]) 2)).1
       true).1.success = true) :=
  ⟨⟨by decide, by decide⟩,
   C3_amended_partial_fetch (fun _ => [{ value := "p@x.com" }]) 2 "boom"
     { emails := ["p@x.com"] } (by decide) (by decide)⟩

/-- The mutable state the worker can touch: the `USER_RISK_KV` namespace
(keyed by the `gateway_list_<listId>` keys, holding parsed expected-state
records) and the remote Gateway list store (keyed by list id). -/
structure World where
  kv : String → Option ExpectedState
  remote : String → List GatewayItem

/-- Line 271 / 748 / 863: the KV key for a list. -/
def kvKeyFor (listId : String) : String := "gateway_list_" ++ listId

/-- A KV `put` of a parsed expected-state record. -/
def putKV (w : World) (key : String) (value : ExpectedState) : World :=
  { w with kv := fun k => if k = key then some value else w.kv k }

/-- A remote-store replace (`PUT` with an `items` array) applied to one
list. -/
def putRemote (w : World) (listId : String) (items : List GatewayItem) : World :=
  { w with remote := fun l => if l = listId then items else w.remote l }

/-- The fresh list-items fetch performed inside `handleReconciliation`
and `updateGatewayList`: a read of the current items of the remote store,
yielding the `fetchGatewayListItems` result object (which carries no
`success` property — see `FetchItemsResult.successProp`). -/
def fetchItemsFromWorld (w : World) (listId : String) : FetchItemsResult :=
  { items := w.remote listId
    pagination := some { totalItems := (w.remote listId).length
                         totalRequests := 1
                         pagesProcessed := 1 } }

/-- Lines 1048-1054: compare two JS Sets (modelled as deduplicated
lists): size first, then elementwise membership. -/
def setsEqual (setA setB : List String) : Bool :=
  if setA.length ≠ setB.length then false
  else setA.all (fun item => setB.contains item)

/-- One entry of the `reconciliationResults` array pushed at
lines 294-304. -/
structure ReconEntry where
  listId : String
  listName : String
  consistent : Bool
  expectedCount : Nat
  actualCount : Nat
  expectedEmails : List String
  actualEmails : List String
  lastUpdated : String
  reconciliationNeeded : Bool
deriving DecidableEq, Repr

/-- One pass of the `for (const list of listIds)` loop of
`handleReconciliation` (lines 270-311): read the KV expected state
(`continue` when absent), fetch the remote items, `continue` when the
`success` property of the fetch result is not truthy (it never is — the fetch
returns no such property), otherwise build the report entry.  No branch
writes to KV or to the remote store. -/
def handleReconciliationTier (w : World) (listId listName : String) :
    Option ReconEntry × World :=
  match w.kv (kvKeyFor listId) with
  | none => (none, w)
  | some expectedState =>
    let expectedEmails := expectedState.emails.dedup
    let currentItemsResult := fetchItemsFromWorld w listId
    if currentItemsResult.successProp then
      let currentEmails := (currentItemsResult.items.map (fun item => item.value)).dedup
      (some { listId := listId
              listName := listName
              consistent := setsEqual currentEmails expectedEmails
              expectedCount := expectedEmails.length
              actualCount := currentEmails.length
              expectedEmails := expectedEmails
              actualEmails := currentEmails
              lastUpdated := expectedState.lastUpdated
              reconciliationNeeded := expectedState.reconciliationNeeded }, w)
    else (none, w)

/-- Shallow embedding of `handleReconciliation` (lines 260-331): the
three tiers processed in order, threading the world state, returning the
collected report entries and the final state. -/
def handleReconciliation (w : World) (highId medId lowId : String) :
    List ReconEntry × World :=
  let r1 := handleReconciliationTier w highId "high"
  let r2 := handleReconciliationTier r1.2 medId "medium"
  let r3 := handleReconciliationTier r2.2 lowId "low"
  ([r1.1, r2.1, r3.1].filterMap id, r3.2)

theorem handleReconciliationTier_frame (w : World) (listId listName : String) :
    (handleReconciliationTier w listId listName).2 = w := by
  rw [handleReconciliationTier]
  match w.kv (kvKeyFor listId) with
  | none => rfl
  | some es => rfl

/-- C9: the consistency check mutates nothing — for every starting state
of the snapshot store and the remote list store, and every triple of list
ids, `handleReconciliation` leaves the world (both stores) exactly as it
found it; it performs only KV reads and list-item fetches. -/
theorem C9_reconciliation_read_only (w : World) (highId medId lowId : String) :
    (handleReconciliation w highId medId lowId).2 = w := by
  rw [handleReconciliation]
  simp only [handleReconciliationTier_frame]

/-- The result object returned by `updateGatewayList`; the failure
returns carry only `success: false` (with an opaque `errors` payload),
modelled by the remaining fields keeping their defaults. -/
structure UpdateResult where
  success : Bool
  removed : Nat := 0
  added : Nat := 0
  users : List String := []
  reconciliationNeeded : Bool := false
  apiInconsistent : Bool := false
deriving Repr

/-- Line 948: the guard `targetEmails.length > 0` where `targetEmails`
is a JS Set; `Set.prototype` has no `length` property (only `size`), so
the read yields `undefined` and `undefined > 0` evaluates to false. -/
def setLengthGtZero (_ : List String) : Bool := false

/-- The part of `updateGatewayList` past the two early guards
(lines 892-1039): compute the diff of target vs current, return early
when nothing to do and the API is consistent, otherwise clear the list
with a PUT, (dead code) add the target items, overwrite the KV expected
state, then verify: re-fetch and, if the `success` property of the verify fetch
property were truthy and the sets differed, persist the
`reconciliationNeeded` flag.  Oracles: `clearSuccess` / `addSuccess` are
the replies of the remote store to the PUTs (a PUT mutates the remote list
exactly when the store reports success); `now` stands for the
timestamps. -/
def updateGatewayListBody (w : World) (listId : String) (users : List UserRecord)
    (clearSuccess addSuccess : Bool) (now : String) : UpdateResult × World :=
  let kvKey := kvKeyFor listId
  let expectedState := (w.kv kvKey).getD { emails := [] }
  let currentItemsResult := fetchItemsFromWorld w listId
  let currentEmails := (currentItemsResult.items.map (fun item => item.value)).dedup
  let targetEmails := (users.map (fun user => user.email)).dedup
  let expectedEmails := expectedState.emails.dedup
  let toAdd := targetEmails.filter (fun email => !currentEmails.contains email)
  let toRemove := currentEmails.filter (fun email => !targetEmails.contains email)
  let apiInconsistent := !setsEqual currentEmails expectedEmails
  if toAdd.length = 0 ∧ toRemove.length = 0 ∧ apiInconsistent = false then
    ({ success := true, removed := 0, added := 0, users := targetEmails }, w)
  else if clearSuccess then
    let w1 := putRemote w listId []
    let afterAdd : Option World :=
      if setLengthGtZero targetEmails then
        if addSuccess then
          some (putRemote w1 listId (targetEmails.map (fun email =>
            { value := email, description := "Risk-based user - updated " ++ now })))
        else none
      else some w1
    match afterAdd with
    | none => ({ success := false }, w1)
    | some w1a =>
      let w2 := putKV w1a kvKey
        { emails := targetEmails, lastUpdated := now, lastAttempt := some now }
      let verifyResult := fetchItemsFromWorld w2 listId
      if verifyResult.successProp then
        let actualEmails := (verifyResult.items.map (fun item => item.value)).dedup
        if setsEqual actualEmails targetEmails then
          ({ success := true, removed := toRemove.length, added := toAdd.length
             users := targetEmails, apiInconsistent := apiInconsistent == true }, w2)
        else
          let w3 := putKV w2 kvKey
            { emails := targetEmails, lastUpdated := now, lastAttempt := some now
              reconciliationNeeded := true, lastReconciliationAttempt := some now }
          ({ success := true, removed := toRemove.length, added := toAdd.length
             users := targetEmails, reconciliationNeeded := true
             apiInconsistent := apiInconsistent == true }, w3)
      else
        ({ success := true, removed := toRemove.length, added := toAdd.length
           users := targetEmails, apiInconsistent := apiInconsistent == true }, w2)
  else
    ({ success := false }, w)

/-- Shallow embedding of `updateGatewayList` (lines 858-1045): the GET of
the list info aborts on `!currentListData.success`
(`listInfoSuccess` oracle), then the fetch of the current items aborts on
`!currentItemsResult.success` — a property the `fetchGatewayListItems`
return object never carries, so this guard always takes the early failure
return. -/
def updateGatewayList (w : World) (listId : String) (users : List UserRecord)
    (listInfoSuccess clearSuccess addSuccess : Bool) (now : String) :
    UpdateResult × World :=
  if listInfoSuccess then
    let currentItemsResult := fetchItemsFromWorld w listId
    if currentItemsResult.successProp then
      updateGatewayListBody w listId users clearSuccess addSuccess now
    else
      ({ success := false }, w)
  else
    ({ success := false }, w)

/-- C8 (refuting the claim on the code): the full-replace path never
persists the drift flag.  First, `updateGatewayList` always returns
failure with the world untouched, because it tests a `success` property
that the `fetchGatewayListItems` result never carries; second, even its
unreachable body never stores a state with `reconciliationNeeded = true`
— the verify step is guarded by the same absent property — so after the
body the KV entry is either untouched or has the flag false; and third,
the flag is erased not by the consistency check (which is read-only) but
by the unconditional `storeExpectedStateInKV` overwrite of the next cycle,
which always writes a state without the flag, regardless of any equality
check. -/
theorem C8_drift_flag_never_persisted
    (w : World) (listId : String) (users users2 : List UserRecord)
    (lis cs as : Bool) (now lvl t : String) :
    updateGatewayList w listId users lis cs as now = ({ success := false }, w) ∧
    ((updateGatewayListBody w listId users cs as now).2.kv (kvKeyFor listId) =
        w.kv (kvKeyFor listId) ∨
      (((updateGatewayListBody w listId users cs as now).2.kv
          (kvKeyFor listId)).map ExpectedState.reconciliationNeeded).getD false =
        false) ∧
    (storeExpectedStateInKV users2 lvl t).reconciliationNeeded = false := by
  refine ⟨?_, ?_, rfl⟩
  · rw [updateGatewayList]
    by_cases hl : lis <;> simp [hl, FetchItemsResult.successProp]
  · simp only [updateGatewayListBody, setLengthGtZero, FetchItemsResult.successProp,
      Bool.false_eq_true, if_false]
    split_ifs with h1 h2
    · exact Or.inl rfl
    · right
      simp [putKV]
    · exact Or.inl rfl

end UserRiskDemo
